import Mathlib

/-!
Verification of the AgriSense Hybrid Query & Retrieval Engine.

The definitions below are a shallow embedding of the two core modules,
`backend/models/datafusion.py` (dataset registry, structured query engine,
correlation and time-series analyzer) and `backend/models/llm_rag.py`
(similarity-filtered retrieval, confidence estimation, answer generation).

Modelling conventions:
* A pandas `DataFrame` is a column-name list plus a list of rows, each row a
  list of cell values aligned with the column list.
* Cell values (`Value`) are rationals, strings, or null; all numeric values
  (including vector distances and similarity thresholds) are modelled as `ℚ`.
* A Python `dict` keyed by strings is an association list updated in place
  (`updateAssoc` keeps the original position of a replaced key, as dicts do).
* Logged-and-swallowed exceptions are modelled by the value the `except`
  branch returns (an empty frame, an error string), exactly as the code does.
* The external services (chromadb index, sentence-transformers embedder,
  Hugging Face inference client, pandas' Pearson kernel) are parameters of
  the embedded functions: the code treats them as black boxes.
-/

/-- A cell value in a tabular dataset: numeric, string, or null (pandas NaN). -/
inductive Value where
  | num : ℚ → Value
  | str : String → Value
  | null : Value
deriving DecidableEq, Repr

/-- A pandas DataFrame: named columns and rows of cells aligned with them. -/
structure DataFrame where
  cols : List String
  rows : List (List Value)
deriving DecidableEq, Repr

/-- The `pd.DataFrame()` an error branch of datafusion.py returns. -/
def emptyDF : DataFrame := ⟨[], []⟩

/-- Value of column `c` in a row (`row[c]` for a row aligned with `cols`). -/
def rowVal (cols : List String) (row : List Value) (c : String) : Value :=
  (List.lookup c (cols.zip row)).getD Value.null

/-- Python dict assignment `d[k] = v`: replace the entry in place if the key
exists (keeping its position, as insertion-ordered dicts do), else append. -/
def updateAssoc {α : Type} (l : List (String × α)) (k : String) (v : α) :
    List (String × α) :=
  match l with
  | [] => [(k, v)]
  | (k0, v0) :: rest =>
      if k0 = k then (k, v) :: rest else (k0, v0) :: updateAssoc rest k v

/-- Metadata snapshot recorded by `register_dataset` (datafusion.py lines
63-70).  The pandas-internal `dtypes` mapping is not modelled; every other
field the code stores is. -/
structure DFMetadata where
  description : String
  columns : List String
  key_columns : List String
  time_column : Option String
  shape : Nat × Nat
deriving DecidableEq, Repr

/-- The in-memory state of the `DataFusion` engine: the `datasets` dict and
the `metadata` dict (datafusion.py lines 27-28).  The optional SQL engine is
not part of any claim and is not modelled. -/
structure DataFusion where
  datasets : List (String × DataFrame)
  metadata : List (String × DFMetadata)
deriving DecidableEq, Repr

/-- A fresh engine: both dicts start empty (datafusion.py `__init__`). -/
def DataFusion.empty : DataFusion := ⟨[], []⟩

/-- Embedding of `DataFusion.register_dataset` (datafusion.py lines 44-72):
stores the frame under `name` and records a metadata snapshot, overwriting
both dict entries for that name. -/
def DataFusion.register_dataset (fus : DataFusion) (name : String)
    (df : DataFrame) (description : String) (key_columns : List String)
    (time_column : Option String) : DataFusion :=
  { datasets := updateAssoc fus.datasets name df
    metadata := updateAssoc fus.metadata name
      { description := description
        columns := df.cols
        key_columns := key_columns
        time_column := time_column
        shape := (df.rows.length, df.cols.length) } }

/-- Embedding of `DataFusion.get_dataset` (datafusion.py lines 74-76):
`self.datasets.get(name)`. -/
def DataFusion.get_dataset (fus : DataFusion) (name : String) :
    Option DataFrame :=
  List.lookup name fus.datasets

/-- Embedding of `DataFusion.find_common_columns` (datafusion.py lines
85-102): empty if either dataset is unknown, else the intersection of the
two column sets.  Python materialises an unordered `set`; we take the common
columns in first-frame order, which is one refinement of that set. -/
def DataFusion.find_common_columns (fus : DataFusion) (d1 d2 : String) :
    List String :=
  match List.lookup d1 fus.datasets, List.lookup d2 fus.datasets with
  | some a, some b => (a.cols.filter (fun c => b.cols.contains c)).dedup
  | _, _ => []

/-- Column list of an inner `pd.merge` with suffixes `("_left", "_right")`:
left's columns (clashing non-key names suffixed `_left`), then right's
non-key columns (clashing names suffixed `_right`). -/
def mergeCols (lcols rcols onCols : List String) : List String :=
  lcols.map
    (fun c => if onCols.contains c ∨ ¬ rcols.contains c then c else c ++ "_left")
  ++ (rcols.filter (fun c => ¬ onCols.contains c)).map
    (fun c => if lcols.contains c then c ++ "_right" else c)

/-- Rows of an inner `pd.merge` over key list `onCols`: each left row paired
with every right row agreeing with it at all keys, left rows' order first. -/
def mergeRows (l r : DataFrame) (onCols : List String) : List (List Value) :=
  l.rows.flatMap (fun lr =>
    (r.rows.filter (fun rr =>
        onCols.all (fun k => decide (rowVal l.cols lr k = rowVal r.cols rr k)))).map
      (fun rr =>
        lr ++ (r.cols.zip rr).filterMap
          (fun p => if onCols.contains p.1 then none else some p.2)))

/-- Embedding of `DataFusion.merge_datasets` (datafusion.py lines 104-143)
for the default inner join (the only mode the analyzed call sites use).
Unknown dataset names, auto-detection finding no common column, and the
`pd.merge` exceptions the code catches (a key column absent from a side, an
empty explicit key list) all return the empty frame, as the code does. -/
def DataFusion.merge_datasets (fus : DataFusion) (left_name right_name : String)
    (onCols : Option (List String)) : DataFrame :=
  match List.lookup left_name fus.datasets,
      List.lookup right_name fus.datasets with
  | some l, some r =>
      let keys := match onCols with
        | some ks => ks
        | none => fus.find_common_columns left_name right_name
      if keys.isEmpty then emptyDF
      else if keys.all (fun k => l.cols.contains k && r.cols.contains k) then
        ⟨mergeCols l.cols r.cols keys, mergeRows l r keys⟩
      else emptyDF
  | _, _ => emptyDF

/-- Pandas elementwise equality `df[col] == value`: NaN compares unequal to
everything, including NaN itself. -/
def valEqBool : Value → Value → Bool
  | .null, _ => false
  | _, .null => false
  | a, b => decide (a = b)

/-- A filter value in `query_dataset`: a scalar (equality test) or a
sequence (`isin` membership test). -/
inductive FilterVal where
  | single : Value → FilterVal
  | multi : List Value → FilterVal
deriving DecidableEq, Repr

/-- One iteration of the filter loop of `query_dataset` (datafusion.py lines
172-177): a filter whose column is absent is skipped, a sequence value keeps
rows whose cell is a member (pandas `isin`, which does match NaN against a
NaN in the list), a scalar keeps rows whose cell equals it. -/
def applyFilter (cols : List String) (rows : List (List Value)) (c : String)
    (v : FilterVal) : List (List Value) :=
  if cols.contains c then
    match v with
    | .single w => rows.filter (fun r => valEqBool (rowVal cols r c) w)
    | .multi ws => rows.filter (fun r => ws.contains (rowVal cols r c))
  else rows

/-- The whole filter loop of `query_dataset`, in dict iteration order. -/
def applyFilters (cols : List String) (rows : List (List Value)) :
    List (String × FilterVal) → List (List Value)
  | [] => rows
  | (c, v) :: rest => applyFilters cols (applyFilter cols rows c v) rest

/-- Column-selection step of `query_dataset` (datafusion.py lines 179-183):
restrict to the requested columns, skipped entirely when none of them
exists in the frame (or when the requested list is empty or absent, both
falsy in Python). -/
def projectStep (df : DataFrame) (columns : Option (List String)) :
    DataFrame :=
  match columns with
  | none => df
  | some cs =>
      let available_cols := cs.filter (fun c => df.cols.contains c)
      if available_cols.isEmpty then df
      else ⟨available_cols,
        df.rows.map (fun r => available_cols.map (rowVal df.cols r))⟩

/-- Row-limit step of `query_dataset` (datafusion.py lines 185-187):
`df.head(limit)`, skipped when `limit` is absent or `0` (falsy). -/
def limitStep (df : DataFrame) (limit : Option Nat) : DataFrame :=
  match limit with
  | some n => if n = 0 then df else ⟨df.cols, df.rows.take n⟩
  | none => df

/-- Embedding of `DataFusion.query_dataset` (datafusion.py lines 145-189):
empty frame for an unknown name; then the filter loop, the projection step
and the row limit, in that order. -/
def DataFusion.query_dataset (fus : DataFusion) (dataset_name : String)
    (filters : List (String × FilterVal)) (columns : Option (List String))
    (limit : Option Nat) : DataFrame :=
  match List.lookup dataset_name fus.datasets with
  | none => emptyDF
  | some df =>
      limitStep
        (projectStep ⟨df.cols, applyFilters df.cols df.rows filters⟩ columns)
        limit

/-- Numeric view of a cell: strings and nulls have none. -/
def Value.toNum : Value → Option ℚ
  | .num q => some q
  | _ => none

/-- String test on a cell. -/
def Value.isStr : Value → Bool
  | .str _ => true
  | _ => false

/-- The aggregation-function names `aggregate_data` accepts in its
column-to-function mapping. -/
inductive AggFunc where
  | sum | mean | min | max | count
deriving DecidableEq, Repr

/-- One pandas aggregation over a column's non-null numeric values (pandas
aggregations skip NaN; aggregating a string column is outside every claim
and is modelled as skipping the strings too). -/
def aggVal : AggFunc → List ℚ → Value
  | .sum, vs => .num vs.sum
  | .mean, vs => if vs.isEmpty then .null else .num (vs.sum / vs.length)
  | .min, vs =>
      match vs with
      | [] => .null
      | x :: xs => .num (xs.foldl Min.min x)
  | .max, vs =>
      match vs with
      | [] => .null
      | x :: xs => .num (xs.foldl Max.max x)
  | .count, vs => .num vs.length

/-- Distinct group keys in first-appearance order (pandas `groupby` sorts
group keys; no claim depends on the key order, so the model keeps the
simpler first-appearance order). -/
def distinctKeys : List (List Value) → List (List Value)
  | [] => []
  | k :: rest => k :: distinctKeys (rest.filter (fun x => x ≠ k))
termination_by l => l.length
decreasing_by
  exact Nat.lt_succ_of_le (List.length_filter_le _ _)

/-- Embedding of `DataFusion.aggregate_data` (datafusion.py lines 191-230):
filters first via `query_dataset`; an empty filtered frame is returned as
is; group-by columns absent from the schema are dropped and, if none
remains, the code logs and returns an empty frame; an aggregation column
absent from the schema makes `DataFrame.agg` raise, which the `except`
branch turns into an empty frame; otherwise groups by the valid subset and
emits one row per group key (key values, then one aggregate per mapping
entry, as `reset_index` lays them out). -/
def DataFusion.aggregate_data (fus : DataFusion) (dataset_name : String)
    (group_by : List String) (agg_funcs : List (String × AggFunc))
    (filters : List (String × FilterVal)) : DataFrame :=
  let df := fus.query_dataset dataset_name filters none none
  if df.rows.isEmpty || df.cols.isEmpty then df
  else
    let valid_group_cols := group_by.filter (fun c => df.cols.contains c)
    if valid_group_cols.isEmpty then emptyDF
    else if agg_funcs.all (fun p => df.cols.contains p.1) then
      ⟨valid_group_cols ++ agg_funcs.map Prod.fst,
        (distinctKeys (df.rows.map
            (fun r => valid_group_cols.map (rowVal df.cols r)))).map
          (fun key =>
            let grp := df.rows.filter
              (fun r => decide (valid_group_cols.map (rowVal df.cols r) = key))
            key ++ agg_funcs.map (fun p =>
              aggVal p.2 (grp.filterMap (fun r => (rowVal df.cols r p.1).toNum))))⟩
    else emptyDF

/-- Suffix resolution of a value column after the join (datafusion.py line
262): the plain name when it survived the merge, else the `_left` suffixed
version. -/
def resolveLeft (cols : List String) (c : String) : String :=
  if cols.contains c then c else c ++ "_left"

/-- Suffix resolution for the second value column (datafusion.py line 263),
with the `_right` suffix. -/
def resolveRight (cols : List String) (c : String) : String :=
  if cols.contains c then c else c ++ "_right"

/-- The `merged[[col1, col2]].dropna()` step (datafusion.py line 266): the
paired observations whose cells are both non-null. -/
def cleanPairs (merged : DataFrame) (col1 col2 : String) :
    List (Value × Value) :=
  merged.rows.filterMap (fun r =>
    let a := rowVal merged.cols r col1
    let b := rowVal merged.cols r col2
    if a ≠ Value.null ∧ b ≠ Value.null then some (a, b) else none)

/-- Embedding of `DataFusion.calculate_correlation` (datafusion.py lines
232-278).  The Pearson kernel (pandas `Series.corr`) is an external numeric
routine and is a parameter; `none` from it models the exception the code
catches (for example `corr` over non-numeric cells), which also yields the
`(0.0, merged)` fallback.  The merge is the default inner join.  An empty
merge returns `(0.0, empty frame)`; a value column absent even after suffix
resolution makes the column selection raise, caught into `(0.0, merged)`;
fewer than 2 rows surviving `dropna` return the `(0.0, merged)` sentinel. -/
def DataFusion.calculate_correlation (fus : DataFusion)
    (pearson : List (Value × Value) → Option ℚ)
    (dataset1_name dataset2_name value_col1 value_col2 : String)
    (merge_on : List String) : ℚ × DataFrame :=
  let merged := fus.merge_datasets dataset1_name dataset2_name (some merge_on)
  if merged.rows.isEmpty || merged.cols.isEmpty then (0, emptyDF)
  else
    let col1 := resolveLeft merged.cols value_col1
    let col2 := resolveRight merged.cols value_col2
    if merged.cols.contains col1 && merged.cols.contains col2 then
      let merged_clean := cleanPairs merged col1 col2
      if merged_clean.length < 2 then (0, merged)
      else
        match pearson merged_clean with
        | some c => (c, merged)
        | none => (0, merged)
    else (0, merged)

/-- One row of a time-series analysis input: the designated time column
after `pd.to_datetime(errors="coerce")` (an unparseable time is `none`,
pandas NaT) and the designated value column. -/
structure TSRow where
  time : Option Int
  value : Value
deriving DecidableEq, Repr

/-- Time comparison used by `sort_values(time_column)`: ascending, with NaT
sorted last (pandas default `na_position="last"`). -/
def timeLE : Option Int → Option Int → Bool
  | none, none => true
  | none, some _ => false
  | some _, none => true
  | some a, some b => decide (a ≤ b)

/-- Insertion step of the time sort. -/
def insertByTime (x : TSRow) : List TSRow → List TSRow
  | [] => [x]
  | y :: ys =>
      if timeLE x.time y.time then x :: y :: ys else y :: insertByTime x ys

/-- The `df.sort_values(time_column)` step of `time_series_analysis`,
modelled as a stable insertion sort (pandas' default quicksort is unstable,
but no claim depends on the relative order of equal time stamps). -/
def sortByTime : List TSRow → List TSRow
  | [] => []
  | x :: xs => insertByTime x (sortByTime xs)

/-- The trend computation of `time_series_analysis` (datafusion.py lines
280-349, overall-statistics branch, whose `statistics.trend` entry line 342
reads `"increasing" if values.iloc[-1] > values.iloc[0] else "decreasing"`):
sort by time, drop nulls from the value column, compare last against first.
`none` models the paths on which the code returns `{}` from its `except`
branch: an empty value sequence (`iloc` raises) or a non-numeric value
column (`float(values.mean())` raises before the dict is built). -/
def time_series_trend (rows : List TSRow) : Option String :=
  let sorted := sortByTime rows
  if (sorted.map TSRow.value).any Value.isStr then none
  else
    let values := sorted.filterMap (fun r => r.value.toNum)
    match values.head?, values.getLast? with
    | some first, some last =>
        some (if last > first then "increasing" else "decreasing")
    | _, _ => none

/-- One entry of a chromadb query response, already converted to row form:
the document text, its metadata mapping, its cosine distance to the query
embedding, and its id.  The index returns these in ascending-distance
order. -/
structure RetrievedDoc where
  doc : String
  metadata : List (String × String)
  distance : ℚ
  id : String
deriving DecidableEq, Repr

/-- Embedding of the similarity filter of `RAGPipeline.query` (llm_rag.py
lines 208-226): walk the index response in order and keep exactly the
entries whose similarity `1 - distance` is at least the configured
threshold, appending to the four parallel result lists (modelled as one
list of records). -/
def RAGPipeline.query (similarity_threshold : ℚ)
    (results : List RetrievedDoc) : List RetrievedDoc :=
  results.filter (fun r => similarity_threshold ≤ 1 - r.distance)

/-- The reasoning prompt template of `generate_response` (llm_rag.py lines
256-271). -/
def reasoningPrompt (context query : String) : String :=
  "You are AgriSense 2.0, an intelligent agricultural analysis system for India.\n\nContext from government datasets:\n"
  ++ context
  ++ "\n\nUser Question: " ++ query
  ++ "\n\nInstructions:\n1. Answer the question using ONLY the data provided in the context\n2. Show your reasoning process step by step\n3. If the data shows trends or correlations, explain them\n4. Cite specific data points (states, years, values) to support your answer\n5. If the context doesn\x27t contain enough information, say so clearly\n6. Suggest policy insights if relevant\n\nAnswer with reasoning:"

/-- The concise prompt template of `generate_response` (llm_rag.py lines
273-277). -/
def simplePrompt (context query : String) : String :=
  "Context: " ++ context ++ "\n\nQuestion: " ++ query
  ++ "\n\nAnswer clearly and concisely based only on the provided context:"

/-- Python `str.strip()` with no argument: drop leading and trailing
whitespace (written over the character list so it evaluates by `decide`). -/
def pyStrip (s : String) : String :=
  ⟨((s.data.dropWhile Char.isWhitespace).reverse.dropWhile
      Char.isWhitespace).reverse⟩

/-- Embedding of `RAGPipeline.generate_response` (llm_rag.py lines 232-292).
The external inference client is a parameter taking the prompt, the token
budget and the temperature; `Except.error e` models `text_generation`
raising with message `e`.  On success the code returns the generated text
stripped of surrounding whitespace; on failure the `except` branch returns
the string `"Error generating response: " ++ e` as the answer. -/
def RAGPipeline.generate_response
    (llm : String → Nat → ℚ → Except String String)
    (query context : String) (max_tokens : Nat) (temperature : ℚ)
    (include_reasoning : Bool) : String :=
  let prompt := if include_reasoning then reasoningPrompt context query
    else simplePrompt context query
  match llm prompt max_tokens temperature with
  | .ok response => pyStrip response
  | .error e => "Error generating response: " ++ e

/-- Result record of `rag_query`.  The early empty-retrieval return carries
no `num_sources` key, hence the `Option`. -/
structure RAGResult where
  answer : String
  sources : List (List (String × String))
  context : String
  confidence : ℚ
  num_sources : Option Nat
deriving DecidableEq, Repr

/-- Context assembly loop of `rag_query` (llm_rag.py lines 325-331):
1-indexed labelled sections, each headed by the origin dataset from the
document metadata (default `"Unknown"`). -/
def contextParts (i : Nat) : List RetrievedDoc → List String
  | [] => []
  | r :: rest =>
      ("[Source " ++ toString i ++ " - "
          ++ (List.lookup "dataset" r.metadata).getD "Unknown" ++ "]\n"
          ++ r.doc ++ "\n")
        :: contextParts (i + 1) rest

/-- Embedding of `RAGPipeline.rag_query` (llm_rag.py lines 294-351): filter
the index response by similarity (4.5), early-return a fixed answer with
confidence 0.0 on an empty result, else assemble the context, generate the
answer (with the default token budget 1024 and temperature 0.7), and score
confidence as `1 - mean(distances)` over the surviving distances. -/
def RAGPipeline.rag_query (llm : String → Nat → ℚ → Except String String)
    (similarity_threshold : ℚ) (raw : List RetrievedDoc) (query : String)
    (include_reasoning : Bool) : RAGResult :=
  let retrieval_results := RAGPipeline.query similarity_threshold raw
  if retrieval_results.isEmpty then
    { answer := "I couldn\x27t find relevant information in the available datasets to answer this question."
      sources := []
      context := ""
      confidence := 0
      num_sources := none }
  else
    let context := String.intercalate "\n" (contextParts 1 retrieval_results)
    let answer := RAGPipeline.generate_response llm query context 1024
      (7 / 10) include_reasoning
    let distances := retrieval_results.map RetrievedDoc.distance
    let confidence : ℚ :=
      if distances.isEmpty then 0
      else 1 - distances.sum / (distances.length : ℚ)
    { answer := answer
      sources := retrieval_results.map RetrievedDoc.metadata
      context := context
      confidence := confidence
      num_sources := some retrieval_results.length }

theorem lookup_updateAssoc_self {α : Type} (l : List (String × α)) (k : String)
    (v : α) : List.lookup k (updateAssoc l k v) = some v := by
  induction l with
  | nil => simp [updateAssoc, List.lookup]
  | cons p rest ih =>
      obtain ⟨k0, v0⟩ := p
      by_cases h : k0 = k
      · simp [updateAssoc, h, List.lookup]
      · simpa [updateAssoc, h, List.lookup,
          beq_eq_false_iff_ne.mpr (Ne.symm h)] using ih

theorem mem_keys_updateAssoc {α : Type} (l : List (String × α)) (k : String)
    (v : α) (a : String) :
    a ∈ (updateAssoc l k v).map Prod.fst ↔ a ∈ l.map Prod.fst ∨ a = k := by
  induction l with
  | nil => simp [updateAssoc]
  | cons p rest ih =>
      obtain ⟨k0, v0⟩ := p
      by_cases h : k0 = k
      · subst h
        simp [updateAssoc]
        tauto
      · simp [updateAssoc, h, ih]
        tauto

theorem nodup_keys_updateAssoc {α : Type} (l : List (String × α)) (k : String)
    (v : α) (h : (l.map Prod.fst).Nodup) :
    ((updateAssoc l k v).map Prod.fst).Nodup := by
  induction l with
  | nil => simp [updateAssoc]
  | cons p rest ih =>
      obtain ⟨k0, v0⟩ := p
      rw [List.map_cons, List.nodup_cons] at h
      by_cases hk : k0 = k
      · subst hk
        simpa [updateAssoc] using h
      · rw [updateAssoc]
        simp only [if_neg hk, List.map_cons, List.nodup_cons]
        refine ⟨?_, ih h.2⟩
        rw [mem_keys_updateAssoc]
        rintro (hmem | rfl)
        · exact h.1 hmem
        · exact hk rfl

theorem filter_key_eq_nil {α : Type} (l : List (String × α)) (k : String)
    (h : k ∉ l.map Prod.fst) :
    l.filter (fun p => p.1 = k) = [] := by
  rw [List.filter_eq_nil_iff]
  intro p hp hpk
  exact h (List.mem_map.mpr ⟨p, hp, by simpa using hpk⟩)

theorem length_filter_updateAssoc {α : Type} (l : List (String × α))
    (k : String) (v : α) (h : (l.map Prod.fst).Nodup) :
    ((updateAssoc l k v).filter (fun p => p.1 = k)).length = 1 := by
  induction l with
  | nil => simp [updateAssoc]
  | cons p rest ih =>
      obtain ⟨k0, v0⟩ := p
      rw [List.map_cons, List.nodup_cons] at h
      by_cases hk : k0 = k
      · subst hk
        rw [updateAssoc, if_pos rfl]
        simp [List.filter_cons, filter_key_eq_nil rest k0 h.1]
      · rw [updateAssoc, if_neg hk]
        simpa [List.filter_cons, hk] using ih h.2

/-- C8: registering a dataset name again is a total replacement.  After two
registrations of the same name (on a well-formed registry, whose dict keys
are distinct), the name maps to exactly one current dataset — the second
registration's content — and the metadata entry is the second snapshot. -/
theorem register_dataset_total_replacement (fus : DataFusion) (name : String)
    (df1 df2 : DataFrame) (desc1 desc2 : String) (kc1 kc2 : List String)
    (tc1 tc2 : Option String)
    (hnd : (fus.datasets.map Prod.fst).Nodup)
    (hmd : (fus.metadata.map Prod.fst).Nodup) :
    ((fus.register_dataset name df1 desc1 kc1 tc1).register_dataset name df2
        desc2 kc2 tc2).get_dataset name = some df2 ∧
    ((((fus.register_dataset name df1 desc1 kc1 tc1).register_dataset name df2
        desc2 kc2 tc2).datasets.filter (fun p => p.1 = name)).length = 1) ∧
    ((((fus.register_dataset name df1 desc1 kc1 tc1).register_dataset name df2
        desc2 kc2 tc2).metadata.filter (fun p => p.1 = name)).length = 1) ∧
    List.lookup name ((fus.register_dataset name df1 desc1 kc1
        tc1).register_dataset name df2 desc2 kc2 tc2).metadata
      = some ⟨desc2, df2.cols, kc2, tc2, (df2.rows.length, df2.cols.length)⟩ := by
  refine ⟨?_, ?_, ?_, ?_⟩
  · show List.lookup name
        (updateAssoc (updateAssoc fus.datasets name df1) name df2) = some df2
    exact lookup_updateAssoc_self _ _ _
  · exact length_filter_updateAssoc _ _ _
      (nodup_keys_updateAssoc fus.datasets name df1 hnd)
  · exact length_filter_updateAssoc _ _ _
      (nodup_keys_updateAssoc fus.metadata name _ hmd)
  · exact lookup_updateAssoc_self _ _ _

def dfx1 : DataFrame := ⟨["a"], [[Value.num 1]]⟩

def dfx2 : DataFrame := ⟨["a"], [[Value.num 2]]⟩

/-- C8 witness: the replacement property at the concrete scenario of the
spec — registering `"x"` twice with different contents. -/
theorem register_dataset_total_replacement_witness :
    ((DataFusion.empty.register_dataset "x" dfx1 "" [] none).register_dataset
        "x" dfx2 "" [] none).get_dataset "x" = some dfx2 ∧
    ((((DataFusion.empty.register_dataset "x" dfx1 "" [] none).register_dataset
        "x" dfx2 "" [] none).datasets.filter (fun p => p.1 = "x")).length = 1) ∧
    ((((DataFusion.empty.register_dataset "x" dfx1 "" [] none).register_dataset
        "x" dfx2 "" [] none).metadata.filter (fun p => p.1 = "x")).length = 1) ∧
    List.lookup "x" ((DataFusion.empty.register_dataset "x" dfx1 ""
        [] none).register_dataset "x" dfx2 "" [] none).metadata
      = some ⟨"", dfx2.cols, [], none, (dfx2.rows.length, dfx2.cols.length)⟩ :=
  register_dataset_total_replacement DataFusion.empty "x" dfx1 dfx2 "" "" []
    [] none none (by simp [DataFusion.empty]) (by simp [DataFusion.empty])

/-- C3: every document the retrieval filter returns has similarity
`1 - distance` at least the configured threshold; the returned sequence is
a sublist of the index's ascending-distance response (never re-sorted) and
contains every surviving entry, so it is exactly the original order
restricted to the survivors; and lowering the threshold never removes a
previously-included result. -/
theorem query_similarity_filter_properties (t tl : ℚ)
    (raw : List RetrievedDoc) (r : RetrievedDoc) :
    (∀ s ∈ RAGPipeline.query t raw, t ≤ 1 - s.distance) ∧
    (RAGPipeline.query t raw).Sublist raw ∧
    (r ∈ raw → t ≤ 1 - r.distance → r ∈ RAGPipeline.query t raw) ∧
    (tl ≤ t → r ∈ RAGPipeline.query t raw → r ∈ RAGPipeline.query tl raw) := by
  simp only [RAGPipeline.query]
  refine ⟨?_, List.filter_sublist raw, ?_, ?_⟩
  · intro s hs
    simpa using (List.mem_filter.mp hs).2
  · intro hmem hsim
    exact List.mem_filter.mpr ⟨hmem, by simpa using hsim⟩
  · intro hle hmem
    rcases List.mem_filter.mp hmem with ⟨hraw, hp⟩
    have h1 : t ≤ 1 - r.distance := by simpa using hp
    exact List.mem_filter.mpr ⟨hraw, by simpa using le_trans hle h1⟩

def exDocA : RetrievedDoc := ⟨"a", [("dataset", "rain")], 1 / 10, "doc_0"⟩

def exRaw : List RetrievedDoc :=
  [exDocA, ⟨"b", [], 4 / 10, "doc_1"⟩, ⟨"c", [], 2 / 10, "doc_2"⟩]

/-- C3 witness: at threshold `0.7` the first response entry (distance
`0.1`) survives, and it still survives after lowering the threshold to
`0.5`. -/
theorem query_similarity_filter_properties_witness :
    exDocA ∈ RAGPipeline.query (7 / 10) exRaw ∧
    exDocA ∈ RAGPipeline.query (1 / 2) exRaw := by
  have h := query_similarity_filter_properties (7 / 10) (1 / 2) exRaw exDocA
  have hmem : exDocA ∈ exRaw := by simp [exRaw]
  have h1 := h.2.2.1 hmem (by norm_num [exDocA])
  exact ⟨h1, h.2.2.2 (by norm_num) h1⟩

/-- C4: for a time-series whose value sequence (in ascending time order,
after dropping nulls) is numeric and non-empty, the trend label is
`"increasing"` exactly when the last chronological value strictly exceeds
the first, and `"decreasing"` otherwise — ties included. -/
theorem time_series_trend_two_point (rows : List TSRow) (v0 v1 : ℚ)
    (hstr : ((sortByTime rows).map TSRow.value).any Value.isStr = false)
    (hhead :
      ((sortByTime rows).filterMap (fun r => r.value.toNum)).head? = some v0)
    (hlast :
      ((sortByTime rows).filterMap (fun r => r.value.toNum)).getLast?
        = some v1) :
    (time_series_trend rows = some "increasing" ↔ v0 < v1) ∧
    (v1 ≤ v0 → time_series_trend rows = some "decreasing") := by
  simp only [time_series_trend, hstr, Bool.false_eq_true, if_false, hhead,
    hlast]
  by_cases h : v0 < v1
  · simp [h, gt_iff_lt]
  · constructor
    · simp only [gt_iff_lt, h, if_false]
      constructor
      · intro hcontra
        exact absurd (Option.some.inj hcontra) (by decide)
      · intro hcontra
        exact hcontra.elim
    · intro _
      simp [gt_iff_lt, h]

def exTS4 : List TSRow :=
  [⟨some 0, .num 100⟩, ⟨some 1, .num 90⟩, ⟨some 2, .num 80⟩,
    ⟨some 3, .num 110⟩]

def exTS2 : List TSRow := [⟨some 0, .num 100⟩, ⟨some 1, .num 90⟩]

/-- C4 witness: the spec's two examples — time-ordered values
`[100, 90, 80, 110]` trend `"increasing"`, `[100, 90]` trend
`"decreasing"`. -/
theorem time_series_trend_two_point_witness :
    time_series_trend exTS4 = some "increasing" ∧
    time_series_trend exTS2 = some "decreasing" := by
  constructor
  · exact (time_series_trend_two_point exTS4 100 110 (by decide) (by decide)
      (by decide)).1.mpr (by norm_num)
  · exact (time_series_trend_two_point exTS2 100 90 (by decide) (by decide)
      (by decide)).2 (by norm_num)

/-- C5: the end-to-end confidence of `rag_query` equals
`1 - mean(distances)` over the distances of the post-filter retrieved set,
and equals `0.0` when that set is empty (including the
empty-or-never-created-collection case, whose index response is empty). -/
theorem rag_query_confidence_one_minus_mean
    (llm : String → Nat → ℚ → Except String String) (t : ℚ)
    (raw : List RetrievedDoc) (q : String) (ir : Bool) :
    (RAGPipeline.query t raw = [] →
      (RAGPipeline.rag_query llm t raw q ir).confidence = 0) ∧
    (RAGPipeline.query t raw ≠ [] →
      (RAGPipeline.rag_query llm t raw q ir).confidence
        = 1 - ((RAGPipeline.query t raw).map RetrievedDoc.distance).sum
            / (((RAGPipeline.query t raw).map
                RetrievedDoc.distance).length : ℚ)) := by
  constructor
  · intro h
    simp [RAGPipeline.rag_query, h]
  · intro h
    have h1 : (RAGPipeline.query t raw).isEmpty = false := by
      simpa [List.isEmpty_iff] using h
    have h2 : ((RAGPipeline.query t raw).map RetrievedDoc.distance).isEmpty
        = false := by
      simp [List.isEmpty_iff, List.map_eq_nil_iff, h]
    simp [RAGPipeline.rag_query, h1, h2]

def exLLM : String → Nat → ℚ → Except String String :=
  fun _ _ _ => Except.ok "ok"

/-- C5 witness: an empty index response yields confidence `0.0`; the
concrete three-entry response at threshold `0.7` yields
`1 - mean(distances)` over its two survivors. -/
theorem rag_query_confidence_one_minus_mean_witness :
    (RAGPipeline.rag_query exLLM (7 / 10) [] "q" true).confidence = 0 ∧
    (RAGPipeline.rag_query exLLM (7 / 10) exRaw "q" true).confidence
      = 1 - ((RAGPipeline.query (7 / 10) exRaw).map RetrievedDoc.distance).sum
          / (((RAGPipeline.query (7 / 10) exRaw).map
              RetrievedDoc.distance).length : ℚ) := by
  constructor
  · exact (rag_query_confidence_one_minus_mean exLLM (7 / 10) [] "q" true).1
      rfl
  · refine (rag_query_confidence_one_minus_mean exLLM (7 / 10) exRaw "q"
      true).2 ?_
    intro h
    norm_num [RAGPipeline.query, exRaw, exDocA, List.filter] at h
    exact List.cons_ne_nil _ _ h

def failingLLM : String → Nat → ℚ → Except String String :=
  fun _ _ _ => Except.error "boom"

def echoLLM : String → Nat → ℚ → Except String String :=
  fun _ _ _ => Except.ok "Error generating response: boom"

/-- C6, evaluated at the failing input: when the external service raises
(here with message `"boom"`), `generate_response` returns the plain string
`"Error generating response: boom"` — a value of the same `String` type as
a valid answer, byte-for-byte identical to what a service that genuinely
generated that text would produce.  The code offers no tagged failure
result, contradicting the specified behavior. -/
theorem generate_response_returns_error_as_answer_text :
    RAGPipeline.generate_response failingLLM "q" "ctx" 1024 (7 / 10) true
      = "Error generating response: boom" ∧
    RAGPipeline.generate_response failingLLM "q" "ctx" 1024 (7 / 10) true
      = RAGPipeline.generate_response echoLLM "q" "ctx" 1024 (7 / 10) true := by
  exact ⟨rfl, by decide⟩

/-- C1, the code's actual behavior at the claim's scenario: joining two
registered datasets that share no column name, with no explicit key-column
list, returns the empty frame `pd.DataFrame()` — the code logs "No common
columns found" and swallows the condition instead of raising the
`NoJoinKeyError` the specification requires. -/
theorem merge_datasets_no_common_columns_empty (fus : DataFusion)
    (l r : String) (dl dr : DataFrame)
    (hl : List.lookup l fus.datasets = some dl)
    (hr : List.lookup r fus.datasets = some dr)
    (hdisj : ∀ c ∈ dl.cols, c ∉ dr.cols) :
    fus.merge_datasets l r none = emptyDF := by
  have hcc : fus.find_common_columns l r = [] := by
    simp only [DataFusion.find_common_columns, hl, hr, List.dedup_eq_nil,
      List.filter_eq_nil_iff]
    intro c hc hcontains
    exact hdisj c hc (List.elem_iff.mp hcontains)
  simp [DataFusion.merge_datasets, hl, hr, hcc]

def dsA : DataFrame := ⟨["a"], [[Value.num 1]]⟩

def dsB : DataFrame := ⟨["b"], [[Value.num 2]]⟩

def disjointFus : DataFusion :=
  (DataFusion.empty.register_dataset "A" dsA "" [] none).register_dataset
    "B" dsB "" [] none

/-- C1 witness: the concrete failing input — datasets `"A"` (column `a`)
and `"B"` (column `b`) joined with auto-detected keys come back as the
empty frame, with no error of any kind. -/
theorem merge_datasets_no_common_columns_empty_witness :
    disjointFus.merge_datasets "A" "B" none = emptyDF :=
  merge_datasets_no_common_columns_empty disjointFus "A" "B" dsA dsB
    (by decide) (by decide) (by decide)

theorem query_dataset_cols_no_projection (fus : DataFusion) (name : String)
    (df : DataFrame) (filters : List (String × FilterVal))
    (h : List.lookup name fus.datasets = some df) :
    (fus.query_dataset name filters none none).cols = df.cols := by
  simp [DataFusion.query_dataset, projectStep, limitStep, h]

/-- C2, the code's actual behavior at the claim's scenario: when none of
the requested group-by columns exists in the (non-empty) filtered dataset,
`aggregate_data` returns the empty frame — it logs "No valid group_by
columns" and swallows the condition instead of raising the
`InvalidGroupColumnsError` the specification requires.  (The claim's second
half — a partially valid column list is silently reduced to its valid
subset — is what the code does on the other branch.) -/
theorem aggregate_data_no_valid_group_cols_empty (fus : DataFusion)
    (name : String) (df : DataFrame) (group_by : List String)
    (agg_funcs : List (String × AggFunc))
    (filters : List (String × FilterVal))
    (hlook : List.lookup name fus.datasets = some df)
    (hrows : (fus.query_dataset name filters none none).rows ≠ [])
    (hcols : df.cols ≠ [])
    (hinv : ∀ c ∈ group_by, c ∉ df.cols) :
    fus.aggregate_data name group_by agg_funcs filters = emptyDF := by
  have hc := query_dataset_cols_no_projection fus name df filters hlook
  have hre : (fus.query_dataset name filters none none).rows.isEmpty
      = false := by
    simpa [List.isEmpty_iff] using hrows
  have hce : (fus.query_dataset name filters none none).cols.isEmpty
      = false := by
    rw [hc]
    simpa [List.isEmpty_iff] using hcols
  have hvalid : group_by.filter
      (fun c => (fus.query_dataset name filters none none).cols.contains c)
      = [] := by
    rw [hc, List.filter_eq_nil_iff]
    intro c hcmem hcontains
    exact hinv c hcmem (List.elem_iff.mp hcontains)
  simp [DataFusion.aggregate_data, hre, hce, hvalid]
  intro x hx hmem
  exact (hinv x hx (hc ▸ hmem)).elim

def dsCrops : DataFrame :=
  ⟨["state", "yield_val"], [[Value.str "A", Value.num 5]]⟩

def cropsFus : DataFusion :=
  DataFusion.empty.register_dataset "crops" dsCrops "" [] none

/-- C2 witness: the concrete failing input — grouping dataset `"crops"`
(columns `state`, `yield_val`) by the absent column `z` returns the empty
frame instead of an error. -/
theorem aggregate_data_no_valid_group_cols_empty_witness :
    cropsFus.aggregate_data "crops" ["z"] [("yield_val", AggFunc.sum)] []
      = emptyDF :=
  aggregate_data_no_valid_group_cols_empty cropsFus "crops" dsCrops ["z"]
    [("yield_val", AggFunc.sum)] [] (by decide) (by decide) (by decide)
    (by decide)

def c7left : DataFrame := ⟨["k", "v1"], [[Value.num 1, Value.num 10]]⟩

def c7right : DataFrame := ⟨["k", "v2"], [[Value.num 1, Value.num 20]]⟩

def c7fus : DataFusion :=
  (DataFusion.empty.register_dataset "d1" c7left "" [] none).register_dataset
    "d2" c7right "" [] none

def c7pearson : List (Value × Value) → Option ℚ := fun _ => some 1

/-- C7 counterexample: joining `"d1"` and `"d2"` on `k` leaves exactly one
paired observation (fewer than 2), and `calculate_correlation` returns
coefficient `0.0` together with the one-row joined frame — a non-empty
detail, refuting the claim's "empty detail dataset". -/
theorem calculate_correlation_nonempty_detail_counterexample :
    (cleanPairs (c7fus.merge_datasets "d1" "d2" (some ["k"]))
        (resolveLeft (c7fus.merge_datasets "d1" "d2" (some ["k"])).cols "v1")
        (resolveRight (c7fus.merge_datasets "d1" "d2"
          (some ["k"])).cols "v2")).length = 1 ∧
    c7fus.calculate_correlation c7pearson "d1" "d2" "v1" "v2" ["k"]
      = (0, ⟨["k", "v1", "v2"],
          [[Value.num 1, Value.num 10, Value.num 20]]⟩) ∧
    (⟨["k", "v1", "v2"], [[Value.num 1, Value.num 10, Value.num 20]]⟩
        : DataFrame) ≠ emptyDF := by
  refine ⟨by decide, by decide, by decide⟩

/-- C7 amended: a correlation request whose joined dataset is non-empty
but has fewer than 2 paired observations after dropping nulls returns
coefficient `0.0` together with the joined dataset as the detail (it does
not fail); the detail is the empty frame only on the earlier branch where
the join itself came back empty. -/
theorem calculate_correlation_few_pairs_sentinel (fus : DataFusion)
    (pearson : List (Value × Value) → Option ℚ)
    (d1 d2 v1 v2 : String) (keys : List String)
    (hrows : (fus.merge_datasets d1 d2 (some keys)).rows ≠ [])
    (hcols : (fus.merge_datasets d1 d2 (some keys)).cols ≠ [])
    (hfew : (cleanPairs (fus.merge_datasets d1 d2 (some keys))
        (resolveLeft (fus.merge_datasets d1 d2 (some keys)).cols v1)
        (resolveRight (fus.merge_datasets d1 d2 (some keys)).cols v2)).length
        < 2) :
    fus.calculate_correlation pearson d1 d2 v1 v2 keys
      = (0, fus.merge_datasets d1 d2 (some keys)) := by
  have hre : (fus.merge_datasets d1 d2 (some keys)).rows.isEmpty = false := by
    simpa [List.isEmpty_iff] using hrows
  have hce : (fus.merge_datasets d1 d2 (some keys)).cols.isEmpty = false := by
    simpa [List.isEmpty_iff] using hcols
  rw [DataFusion.calculate_correlation]
  simp only [hre, hce, Bool.or_self, Bool.or_false, Bool.false_or,
    Bool.false_eq_true, if_false]
  by_cases hcontains :
      ((fus.merge_datasets d1 d2 (some keys)).cols.contains
        (resolveLeft (fus.merge_datasets d1 d2 (some keys)).cols v1)
      && (fus.merge_datasets d1 d2 (some keys)).cols.contains
        (resolveRight (fus.merge_datasets d1 d2 (some keys)).cols v2)) = true
  · rw [if_pos hcontains, if_pos hfew]
  · rw [if_neg hcontains]

/-- C7 witness for the amended claim, at the counterexample's input. -/
theorem calculate_correlation_few_pairs_sentinel_witness :
    c7fus.calculate_correlation c7pearson "d1" "d2" "v1" "v2" ["k"]
      = (0, c7fus.merge_datasets "d1" "d2" (some ["k"])) :=
  calculate_correlation_few_pairs_sentinel c7fus c7pearson "d1" "d2" "v1"
    "v2" ["k"] (by decide) (by decide) (by decide)

theorem limitStep_cols (df : DataFrame) (limit : Option Nat) :
    (limitStep df limit).cols = df.cols := by
  cases limit with
  | none => rfl
  | some n => by_cases hn : n = 0 <;> simp [limitStep, hn]

/-- C9: when a non-empty requested column list shares no entry with the
dataset's schema, the projection step of `query_dataset` is skipped
entirely: the result coincides with the same query issued with no column
selection at all, and carries all of the dataset's original columns. -/
theorem query_dataset_unknown_columns_projection_skipped (fus : DataFusion)
    (name : String) (df : DataFrame) (cs : List String)
    (filters : List (String × FilterVal)) (limit : Option Nat)
    (hlook : List.lookup name fus.datasets = some df)
    (_hne : cs ≠ [])
    (hunk : ∀ c ∈ cs, c ∉ df.cols) :
    fus.query_dataset name filters (some cs) limit
      = fus.query_dataset name filters none limit ∧
    (fus.query_dataset name filters (some cs) limit).cols = df.cols := by
  have havail : cs.filter (fun c => df.cols.contains c) = [] := by
    rw [List.filter_eq_nil_iff]
    intro c hc hcontains
    exact hunk c hc (List.elem_iff.mp hcontains)
  have hproj : projectStep ⟨df.cols, applyFilters df.cols df.rows filters⟩
      (some cs) = ⟨df.cols, applyFilters df.cols df.rows filters⟩ := by
    simp only [projectStep]
    rw [havail]
    rfl
  have key : fus.query_dataset name filters (some cs) limit
      = fus.query_dataset name filters none limit := by
    simp only [DataFusion.query_dataset, hlook, hproj]
    rfl
  refine ⟨key, ?_⟩
  rw [key]
  simp only [DataFusion.query_dataset, hlook]
  rw [limitStep_cols]
  rfl

/-- C9 witness: requesting only the absent columns `zz`, `yy` of dataset
`"crops"` returns the frame with both original columns untouched. -/
theorem query_dataset_unknown_columns_projection_skipped_witness :
    cropsFus.query_dataset "crops" [] (some ["zz", "yy"]) none
      = cropsFus.query_dataset "crops" [] none none ∧
    (cropsFus.query_dataset "crops" [] (some ["zz", "yy"]) none).cols
      = dsCrops.cols :=
  query_dataset_unknown_columns_projection_skipped cropsFus "crops" dsCrops
    ["zz", "yy"] [] none (by decide) (by decide) (by decide)

theorem applyFilters_unknown_col_skipped (cols : List String) (c : String)
    (v : FilterVal) (hc : c ∉ cols) :
    ∀ (pre : List (String × FilterVal)) (rows : List (List Value))
      (post : List (String × FilterVal)),
      applyFilters cols rows (pre ++ (c, v) :: post)
        = applyFilters cols rows (pre ++ post)
  | [], rows, post => by
      simp [applyFilters, applyFilter, hc]
  | (c0, v0) :: pre, rows, post => by
      simp only [List.cons_append, applyFilters]
      exact applyFilters_unknown_col_skipped cols c v hc pre _ post

/-- C10: a filter entry whose column is absent from the dataset is silently
ignored by `query_dataset`: it neither fails nor drops any row, and the
result is identical to the query with that entry deleted from the filter
mapping. -/
theorem query_dataset_unknown_filter_col_ignored (fus : DataFusion)
    (name : String) (df : DataFrame)
    (pre post : List (String × FilterVal)) (c : String) (v : FilterVal)
    (columns : Option (List String)) (limit : Option Nat)
    (hlook : List.lookup name fus.datasets = some df)
    (hc : c ∉ df.cols) :
    fus.query_dataset name (pre ++ (c, v) :: post) columns limit
      = fus.query_dataset name (pre ++ post) columns limit := by
  have h := applyFilters_unknown_col_skipped df.cols c v hc pre df.rows post
  simp [DataFusion.query_dataset, hlook, h]

/-- C10 witness: filtering dataset `"crops"` on the absent column `zz`
returns exactly the unfiltered query result. -/
theorem query_dataset_unknown_filter_col_ignored_witness :
    cropsFus.query_dataset "crops"
        [("zz", FilterVal.single (Value.num 5))] none none
      = cropsFus.query_dataset "crops" [] none none :=
  query_dataset_unknown_filter_col_ignored cropsFus "crops" dsCrops [] []
    "zz" (FilterVal.single (Value.num 5)) none none (by decide) (by decide)
